import Mathlib

/-!
Verification of the blink-detection core of `pupil_src/shared_modules/blink_detection.py`.

Python floats are modelled as rationals (`ℚ`), exact arithmetic standing in for
IEEE doubles; `deque` becomes `List` with `popleft` removing the head; the
`events` dict entry `events['blinks']` becomes an explicit list threaded in and
out of `recent_events`; exceptions of the batch path become an `Except` value.
-/

namespace BlinkDetection

/-- A pupil datum: the two fields the detector reads from a `pupil_position`
dict (`pp['timestamp']`, `pp['confidence']`). -/
structure Sample where
  timestamp : ℚ
  confidence : ℚ
  deriving DecidableEq, Repr

/-- Default sample used only as the `getD`/`getLastD` fallback at indices that
are proved in bounds; it never influences any computed value. -/
def dfltSample : Sample := ⟨0, 0⟩

inductive BlinkType
  | onset
  | offset
  deriving DecidableEq, Repr

/-- The `blink_entry` dict built in `Blink_Detection.recent_events`
(lines 97–104): `topic` is always `"blink"` and `record` always `true`. -/
structure BlinkEvent where
  topic : String
  type : BlinkType
  confidence : ℚ
  base_data : List Sample
  timestamp : ℚ
  record : Bool
  deriving DecidableEq, Repr

/-- Mutable state of the `Blink_Detection` plugin that the algorithm touches:
the sample deque `self.history`, the three configuration fields, and
`self._recent_blink`. -/
structure BlinkState where
  history : List Sample
  history_length : ℚ
  onset_confidence_threshold : ℚ
  offset_confidence_threshold : ℚ
  recent_blink : Option BlinkEvent

/-- The trimming loop of `recent_events` (lines 70–71):
`while self.history[1]['timestamp'] < age_threshold: self.history.popleft()`.
The `IndexError` raised by `history[1]` once fewer than two samples remain is
caught by the surrounding `try`, which is why the loop stops on lists of
length `< 2`. -/
def trim (age_threshold : ℚ) : List Sample → List Sample
  | a :: b :: rest =>
    if b.timestamp < age_threshold then trim age_threshold (b :: rest)
    else a :: b :: rest
  | l => l

/-- Lines 66–73 of `recent_events`: extend the history with the new samples,
then trim against `age_threshold = history[-1].timestamp - history_length`.
An empty history makes `history[-1]` raise `IndexError`, caught by the
`try`/`except`, so no trimming happens. -/
def post_window (history_length : ℚ) (history new_pp : List Sample) : List Sample :=
  let h1 := history ++ new_pp
  match h1.getLast? with
  | none => h1
  | some lastS => trim (lastS.timestamp - history_length) h1

/-- Modelled from the spec, §4.1 step 1 (refinement comparison only; the
code-derived kernel is `blink_filter` below): kernel `k` of length
`n = filter_size` with `k[i] = +1/n` for `i < n/2` (integer division) and
`k[i] = -1/n` for `i >= n/2`. -/
def kernel_spec (n : ℕ) : List ℚ :=
  (List.range n).map (fun i => if i < n / 2 then (1 : ℚ) / n else -((1 : ℚ) / n))

/-- `activity @ blink_filter`: the dot product of two equal-length vectors. -/
def dotProduct (a b : List ℚ) : ℚ :=
  (List.zipWith (fun x y => x * y) a b).sum

/-- Lines 80–81 (and 172–173): `blink_filter = np.ones(filter_size) / filter_size`
followed by `blink_filter[filter_size // 2:] *= -1`. -/
def blink_filter (n : ℕ) : List ℚ :=
  let base := List.replicate n ((1 : ℚ) / n)
  base.take (n / 2) ++ (base.drop (n / 2)).map (fun x => -x)

/-- Line 85: `filter_response = activity @ blink_filter / 0.45`, with
`filter_size = len(activity)`. -/
def filter_response (activity : List ℚ) : ℚ :=
  dotProduct activity (blink_filter activity.length) / (45 / 100)

/-- Lines 75–104 of `recent_events` after the window has been rebuilt:
bail out when fewer than 2 samples remain or the window spans less than
`history_length`; otherwise evaluate the matched filter on the confidences and
classify the response against the two thresholds, building a `blink_entry`
when the response leaves the `[-offset_threshold, onset_threshold]` band. -/
def detect (s : BlinkState) (w : List Sample) : Option BlinkEvent :=
  match w with
  | p0 :: p1 :: rest =>
    if ((p0 :: p1 :: rest).getLastD dfltSample).timestamp - p0.timestamp
        < s.history_length then
      none
    else
      let activity := (p0 :: p1 :: rest).map (fun pp => pp.confidence)
      let response := filter_response activity
      if -s.offset_confidence_threshold ≤ response ∧
          response ≤ s.onset_confidence_threshold then
        none
      else
        let blink_type :=
          if response > s.onset_confidence_threshold then BlinkType.onset
          else BlinkType.offset
        some
          { topic := "blink"
            type := blink_type
            confidence := min |response| 1
            base_data := p0 :: p1 :: rest
            timestamp :=
              ((p0 :: p1 :: rest).getD ((p0 :: p1 :: rest).length / 2)
                dfltSample).timestamp
            record := true }
  | _ => none

/-- `Blink_Detection.recent_events` (lines 63–106).  `prior_blinks` is the
`events['blinks']` entry as the caller handed it in; line 64 overwrites it
with a fresh empty list, so it never influences the result.  The returned
pair is the new plugin state and the final `events['blinks']` list. -/
def recent_events (s : BlinkState) (prior_blinks : List BlinkEvent)
    (new_pp : List Sample) : BlinkState × List BlinkEvent :=
  let history := post_window s.history_length s.history new_pp
  match detect s history with
  | none => ({ s with history := history, recent_blink := none }, [])
  | some blink_entry =>
    ({ s with history := history, recent_blink := some blink_entry },
      [blink_entry])

/-! ## Batch path: `Offline_Blink_Detection.recalculate` (lines 164–189) -/

/-- Python 3 `round` on an exact value: round half to even. -/
def pythonRound (q : ℚ) : ℤ :=
  let f := ⌊q⌋
  let r := q - f
  if r < 1 / 2 then f
  else if 1 / 2 < r then f + 1
  else if 2 ∣ f then f else f + 1

/-- Line 170: `total_time = all_pp[-1]['timestamp'] - all_pp[0]['timestamp']`
(well-defined only for a non-empty sequence; `recalculate` errors first
otherwise). -/
def total_time (all_pp : List Sample) : ℚ :=
  (all_pp.getLastD dfltSample).timestamp - (all_pp.headD dfltSample).timestamp

/-- Line 171: `filter_size = round(len(all_pp) * self.history_length / total_time)`. -/
def batch_filter_size (all_pp : List Sample) (history_length : ℚ) : ℤ :=
  pythonRound ((all_pp.length : ℚ) * history_length / total_time all_pp)

/-- One coefficient of the full discrete convolution of `a` and `v`:
`Σ_j a[j] * v[k - j]`, out-of-range entries contributing `0`. -/
def convFull (a v : List ℚ) (k : ℕ) : ℚ :=
  ((List.range (k + 1)).map (fun j => a.getD j 0 * v.getD (k - j) 0)).sum

/-- `np.convolve(a, v, 'same')`: the centered slice of the full convolution,
of length `max |a| |v|`, starting at full index `(min |a| |v| - 1) / 2`. -/
def convolve_same (a v : List ℚ) : List ℚ :=
  let start := (min a.length v.length - 1) / 2
  (List.range (max a.length v.length)).map (fun k => convFull a v (k + start))

/-- The three parallel output arrays that `recalculate` stores
(`self.timestamps`, `self.filter_response`, `self.response_classification`). -/
structure ResponseCurve where
  timestamps : List ℚ
  filter_response : List ℚ
  response_classification : List ℚ
  deriving DecidableEq, Repr

/-- The unguarded Python exceptions `recalculate` can raise:
`IndexError` from `all_pp[-1]` on an empty sequence, `ZeroDivisionError` from
`/ total_time` when the duration is zero, and numpy `ValueError` from
`np.ones` on a negative size or `np.convolve` on an empty kernel. -/
inductive RecalcError
  | indexError
  | zeroDivisionError
  | valueError
  deriving DecidableEq, Repr

/-- `Offline_Blink_Detection.recalculate` (lines 164–185), with the plugin
fields it reads passed explicitly.  `offset_confidence_threshold` is accepted
(it is part of the plugin state) but the body never reads it, exactly as in
the source.  Lines 180–185 first set `1` where `onsets`, then `-1` where
`offsets`; when a (negative) threshold makes both masks true, the later
assignment wins, hence the `offsets` test comes first below. -/
def recalculate (all_pp : List Sample)
    (history_length onset_confidence_threshold offset_confidence_threshold : ℚ) :
    Except RecalcError ResponseCurve :=
  if all_pp.isEmpty then .error .indexError
  else if total_time all_pp = 0 then .error .zeroDivisionError
  else
    let filter_size := batch_filter_size all_pp history_length
    if filter_size < 0 then .error .valueError
    else if filter_size = 0 then .error .valueError
    else
      let activity := all_pp.map (fun pp => pp.confidence)
      let bf := blink_filter filter_size.toNat
      let resp := (convolve_same activity bf).map (fun x => x / (45 / 100))
      let classification := resp.map (fun r =>
        if r < -onset_confidence_threshold then (-1 : ℚ)
        else if r > onset_confidence_threshold then 1 else 0)
      .ok
        { timestamps := all_pp.map (fun pp => pp.timestamp)
          filter_response := resp
          response_classification := classification }

/-! ## Kernel algebra -/

lemma blink_filter_eq_append (n : ℕ) :
    blink_filter n =
      List.replicate (n / 2) ((1 : ℚ) / n) ++
        List.replicate (n - n / 2) (-((1 : ℚ) / n)) := by
  simp only [blink_filter]
  rw [List.take_replicate, List.drop_replicate, List.map_replicate,
    min_eq_left (Nat.div_le_self n 2)]

lemma blink_filter_length (n : ℕ) : (blink_filter n).length = n := by
  rw [blink_filter_eq_append]
  simp only [List.length_append, List.length_replicate]
  omega

lemma range_map_ite (m k : ℕ) (a b : ℚ) :
    (List.range (m + k)).map (fun i => if i < m then a else b) =
      List.replicate m a ++ List.replicate k b := by
  induction k with
  | zero =>
    have h : ∀ i ∈ List.range m, (if i < m then a else b) = a :=
      fun i hi => if_pos (List.mem_range.mp hi)
    rw [Nat.add_zero, List.map_congr_left h, List.map_const', List.length_range]
    simp
  | succ k ih =>
    rw [show m + (k + 1) = (m + k) + 1 from rfl, List.range_succ, List.map_append, ih]
    have h : ¬ (m + k < m) := by omega
    simp [h, List.replicate_succ']

lemma blink_filter_eq_kernel_spec (n : ℕ) : blink_filter n = kernel_spec n := by
  have h : List.range n = List.range (n / 2 + (n - n / 2)) := by
    rw [Nat.add_sub_cancel' (Nat.div_le_self n 2)]
  rw [blink_filter_eq_append, kernel_spec, h, range_map_ite]

lemma dotProduct_replicate_left (c : ℚ) : ∀ l : List ℚ,
    dotProduct (List.replicate l.length c) l = c * l.sum
  | [] => by simp [dotProduct]
  | x :: xs => by
    have ih := dotProduct_replicate_left c xs
    simp only [dotProduct, List.length_cons, List.replicate_succ,
      List.zipWith_cons_cons, List.sum_cons] at ih ⊢
    rw [ih]
    ring

lemma blink_filter_sum (n : ℕ) :
    (blink_filter n).sum = -(((n % 2 : ℕ) : ℚ)) / n := by
  rw [blink_filter_eq_append]
  rcases Nat.eq_zero_or_pos n with hn | hn
  · subst hn; simp
  · have hcast : ((n : ℚ)) = 2 * ((n / 2 : ℕ) : ℚ) + ((n % 2 : ℕ) : ℚ) := by
      exact_mod_cast (Nat.div_add_mod n 2).symm
    have hne : (n : ℚ) ≠ 0 := Nat.cast_ne_zero.mpr hn.ne'
    rw [List.sum_append, List.sum_replicate, List.sum_replicate, nsmul_eq_mul,
      nsmul_eq_mul, Nat.cast_sub (Nat.div_le_self n 2)]
    field_simp
    linear_combination (-1 : ℚ) * hcast

/-! ## Trimming lemmas -/

lemma getLastD_irrel (a : Sample) (l : List Sample) (d d' : Sample) :
    (a :: l).getLastD d = (a :: l).getLastD d' := by
  cases l with
  | nil => rfl
  | cons b t => simp only [List.getLastD_cons]

lemma trim_suffix (θ : ℚ) : ∀ l : List Sample, trim θ l <:+ l
  | [] => List.suffix_rfl
  | [_] => List.suffix_rfl
  | a :: b :: rest => by
    rw [trim]
    split
    · exact (trim_suffix θ (b :: rest)).trans (List.suffix_cons a (b :: rest))
    · exact List.suffix_rfl

lemma trim_getLast? (θ : ℚ) : ∀ l : List Sample, (trim θ l).getLast? = l.getLast?
  | [] => rfl
  | [_] => rfl
  | a :: b :: rest => by
    rw [trim]
    split
    · rw [trim_getLast? θ (b :: rest), List.getLast?_cons_cons]
    · rfl

lemma two_le_trim_length (θ : ℚ) : ∀ l : List Sample, 2 ≤ l.length →
    θ ≤ (l.getLastD dfltSample).timestamp → 2 ≤ (trim θ l).length
  | a :: b :: rest, _, hθ => by
    rw [trim]
    split
    · rename_i hb
      match rest with
      | [] =>
        exfalso
        have : (([a, b] : List Sample).getLastD dfltSample) = b := by
          rw [List.getLastD_cons, List.getLastD_cons, List.getLastD_nil]
        rw [this] at hθ
        exact absurd (lt_of_lt_of_le hb hθ) (lt_irrefl _)
      | c :: rest' =>
        apply two_le_trim_length θ (b :: c :: rest') (by simp)
        calc θ ≤ ((a :: b :: c :: rest').getLastD dfltSample).timestamp := hθ
          _ = ((b :: c :: rest').getLastD dfltSample).timestamp := by
            rw [List.getLastD_cons, getLastD_irrel]
    · simp

lemma trim_tail_ge (θ : ℚ) : ∀ l : List Sample,
    l.Pairwise (fun p q => p.timestamp ≤ q.timestamp) →
    ∀ p ∈ (trim θ l).tail, θ ≤ p.timestamp
  | [], _, p, hp => by simp [trim] at hp
  | [a], _, p, hp => by simp [trim] at hp
  | a :: b :: rest, hsorted, p, hp => by
    rw [trim] at hp
    split at hp
    · exact trim_tail_ge θ (b :: rest) hsorted.of_cons p hp
    · rename_i hb
      rw [List.tail_cons] at hp
      have hθb : θ ≤ b.timestamp := not_lt.mp hb
      rcases List.mem_cons.mp hp with rfl | hp'
      · exact hθb
      · have hpair := (List.pairwise_cons.mp hsorted.of_cons).1 p hp'
        exact hθb.trans hpair

/-! ## Claim theorems -/

/-- C3, counterexample: the claim says that for a constant confidence
sequence of value `c` and odd `filter_size` the residual response equals
`c / filter_size`.  For `c = 1`, `filter_size = 3` that would be `1/3`, but
the code's response is `-(1/3)/0.45 = -20/27` (the middle element carries
negative weight, and the response is normalized by `0.45`). -/
theorem C3_counterexample :
    filter_response (List.replicate 3 (1 : ℚ)) ≠ 1 / 3 ∧
      filter_response (List.replicate 3 (1 : ℚ)) = -(20 / 27) := by
  constructor
  · norm_num [filter_response, dotProduct, blink_filter, List.replicate]
  · norm_num [filter_response, dotProduct, blink_filter, List.replicate]

/-- C3 (amended): for every constant confidence sequence of uniform value `c`
and every `filter_size = n ≥ 2`, the matched-filter response is exactly `0`
when `n` is even; when `n` is odd the residual response is
`-(c/n)/0.45 = -20c/(9n)` (not `c/n` as claimed: the middle kernel element is
negative and the response is divided by `0.45`). -/
theorem C3_const_signal_response (n : ℕ) (c : ℚ) (h2 : 2 ≤ n) :
    filter_response (List.replicate n c) =
      if n % 2 = 0 then 0 else -(20 * c) / (9 * n) := by
  have hne : (n : ℚ) ≠ 0 := Nat.cast_ne_zero.mpr (by omega)
  have hrw : List.replicate n c = List.replicate (blink_filter n).length c := by
    rw [blink_filter_length]
  simp only [filter_response, List.length_replicate]
  rw [hrw, dotProduct_replicate_left, blink_filter_sum]
  rcases Nat.mod_two_eq_zero_or_one n with h | h <;> rw [h] <;> simp
  field_simp
  ring

/-- C3 witness: instantiations at an even (`n = 4`) and an odd (`n = 3`)
filter size. -/
theorem C3_const_signal_response_witness :
    filter_response (List.replicate 4 ((1 : ℚ) / 2)) = 0 ∧
      filter_response (List.replicate 3 (2 : ℚ)) = -(20 * 2) / (9 * (3 : ℕ)) := by
  constructor
  · exact (C3_const_signal_response 4 (1 / 2) (by norm_num)).trans (by norm_num)
  · exact (C3_const_signal_response 3 2 (by norm_num)).trans (by norm_num)

/-- C6: for every confidence sequence of length `n = filter_size ≥ 2`, the
matched-filter response equals `dot(confidence_values, k) / 0.45` with the
spec's kernel `k` (`+1/n` below `n // 2`, `-1/n` from `n // 2` on), and for
odd `n` the middle element at index `n / 2` carries the negative weight
`-1/n`. -/
theorem C6_response_eq_spec_kernel_dot (activity : List ℚ)
    (h2 : 2 ≤ activity.length) :
    filter_response activity =
      dotProduct activity (kernel_spec activity.length) / (45 / 100) ∧
    (activity.length % 2 = 1 →
      (kernel_spec activity.length).getD (activity.length / 2) 0 =
        -((1 : ℚ) / (activity.length : ℚ))) := by
  constructor
  · rw [filter_response, blink_filter_eq_kernel_spec]
  · intro _
    have hlt : activity.length / 2 < activity.length :=
      Nat.div_lt_self (by omega) (by norm_num)
    have hlen : activity.length / 2 < (kernel_spec activity.length).length := by
      simpa [kernel_spec] using hlt
    rw [List.getD_eq_getElem _ _ hlen]
    simp [kernel_spec]

/-- C6 witness: the response over `[1, 0, 1]` (length 3) against the
spec-modelled kernel. -/
theorem C6_response_eq_spec_kernel_dot_witness :
    filter_response [1, 0, (1 : ℚ)] =
      dotProduct [1, 0, (1 : ℚ)]
        (kernel_spec ([1, 0, (1 : ℚ)] : List ℚ).length) / (45 / 100) ∧
    (kernel_spec ([1, 0, (1 : ℚ)] : List ℚ).length).getD
        (([1, 0, (1 : ℚ)] : List ℚ).length / 2) 0 =
      -((1 : ℚ) / (([1, 0, (1 : ℚ)] : List ℚ).length : ℚ)) :=
  ⟨(C6_response_eq_spec_kernel_dot [1, 0, 1] (by norm_num)).1,
    (C6_response_eq_spec_kernel_dot [1, 0, 1] (by norm_num)).2 (by norm_num)⟩

/-- C2, counterexample: with samples at timestamps `0, 1, 2` (`n = 3`,
`total_time = 2`) and `history_length = 1`, the code's filter size is
`round(3 * 1 / 2) = 2`, while `round(mean_rate * history_length)` with
`mean_rate = (n - 1)/total_time = 1` is `1`, so the claimed second equality
fails. -/
theorem C2_counterexample :
    batch_filter_size [⟨0, 1⟩, ⟨1, 1⟩, ⟨2, 1⟩] 1 = 2 ∧
      pythonRound
        (((([⟨0, 1⟩, ⟨1, 1⟩, ⟨2, 1⟩] : List Sample).length - 1 : ℕ) : ℚ) /
          total_time [⟨0, 1⟩, ⟨1, 1⟩, ⟨2, 1⟩] * 1) = 1 := by
  constructor <;>
    norm_num [batch_filter_size, total_time, pythonRound, List.getLastD]

/-- C2 (amended): for every sample sequence with `n ≥ 2` and
`total_time > 0`, the batch filter size equals
`round(n * history_length / total_time)` as claimed, and this equals
`round(rate * history_length)` for the rate `n / total_time` — not for the
claimed `mean_rate = (n - 1) / total_time`. -/
theorem C2_batch_filter_size (all_pp : List Sample) (history_length : ℚ)
    (h2 : 2 ≤ all_pp.length) (hT : 0 < total_time all_pp) :
    batch_filter_size all_pp history_length =
      pythonRound ((all_pp.length : ℚ) * history_length / total_time all_pp) ∧
    batch_filter_size all_pp history_length =
      pythonRound ((all_pp.length : ℚ) / total_time all_pp * history_length) := by
  refine ⟨rfl, ?_⟩
  unfold batch_filter_size
  rw [mul_div_right_comm]

/-- C2 witness: samples at timestamps `0` and `2` with `history_length = 1`. -/
theorem C2_batch_filter_size_witness :
    batch_filter_size [⟨0, 1⟩, ⟨2, 1⟩] 1 =
      pythonRound ((([⟨0, 1⟩, ⟨2, 1⟩] : List Sample).length : ℚ) * 1 /
        total_time [⟨0, 1⟩, ⟨2, 1⟩]) ∧
    batch_filter_size [⟨0, 1⟩, ⟨2, 1⟩] 1 =
      pythonRound ((([⟨0, 1⟩, ⟨2, 1⟩] : List Sample).length : ℚ) /
        total_time [⟨0, 1⟩, ⟨2, 1⟩] * 1) :=
  C2_batch_filter_size [⟨0, 1⟩, ⟨2, 1⟩] 1 (by norm_num)
    (by norm_num [total_time, List.getLastD])

/-- C1, counterexample: the claim says a derived filter size of 0 or 1 fails
with an explicit `DegenerateWindowError`, and that insufficient data fails
with an explicit `InsufficientDataError` with no unguarded index or division
failure.  On two samples at timestamps `0` and `1` with
`history_length = 1/2` the derived filter size is `1`, yet `recalculate`
succeeds (no failure at all); and on an empty sequence `recalculate` fails
with the unguarded `IndexError` from `all_pp[-1]`. -/
theorem C1_counterexample :
    batch_filter_size [⟨0, 1⟩, ⟨1, 1⟩] (1 / 2) = 1 ∧
      (recalculate [⟨0, 1⟩, ⟨1, 1⟩] (1 / 2) (1 / 2) (1 / 2)).isOk = true ∧
      recalculate ([] : List Sample) (1 / 5) (1 / 2) (1 / 2) =
        .error .indexError := by
  refine ⟨?_, ?_, rfl⟩
  · norm_num [batch_filter_size, total_time, pythonRound, List.getLastD]
  · norm_num [recalculate, batch_filter_size, total_time, pythonRound,
      List.getLastD, Except.isOk, Except.toBool]

/-- C1 (amended): `recalculate` does fail on insufficient data and on a
non-positive derived filter size, but with the unguarded exceptions of the
code rather than the claimed explicit errors: `IndexError` on an empty
sequence, `ZeroDivisionError` on zero duration (including a single sample),
numpy `ValueError` when the filter size rounds to a non-positive value; a
filter size of `1` (claimed to raise `DegenerateWindowError`) does not fail
at all. -/
theorem C1_recalculate_failure_modes (all_pp : List Sample) (hl onThr offThr : ℚ) :
    (all_pp = [] → recalculate all_pp hl onThr offThr = .error .indexError) ∧
    (all_pp ≠ [] → total_time all_pp = 0 →
      recalculate all_pp hl onThr offThr = .error .zeroDivisionError) ∧
    (all_pp ≠ [] → total_time all_pp ≠ 0 → batch_filter_size all_pp hl ≤ 0 →
      recalculate all_pp hl onThr offThr = .error .valueError) ∧
    (all_pp ≠ [] → total_time all_pp ≠ 0 → 1 ≤ batch_filter_size all_pp hl →
      (recalculate all_pp hl onThr offThr).isOk = true) := by
  refine ⟨?_, ?_, ?_, ?_⟩
  · rintro rfl; rfl
  · intro hne hT
    simp [recalculate, List.isEmpty_iff, hne, hT]
  · intro hne hT hle
    rcases lt_or_eq_of_le hle with hlt | heq
    · simp [recalculate, List.isEmpty_iff, hne, hT, hlt]
    · simp [recalculate, List.isEmpty_iff, hne, hT, ← heq]
  · intro hne hT h1
    have h0 : ¬ batch_filter_size all_pp hl < 0 := by omega
    have h0' : ¬ batch_filter_size all_pp hl = 0 := by omega
    simp [recalculate, List.isEmpty_iff, hne, hT, h0, h0', Except.isOk, Except.toBool]

/-- C1 witness: a single sample raises `ZeroDivisionError`; two samples with
`history_length = 0` give filter size 0 and raise `ValueError`; two samples
with `history_length = 1` give filter size 2 and succeed. -/
theorem C1_recalculate_failure_modes_witness :
    recalculate ([⟨0, 1⟩] : List Sample) (1 / 5) (1 / 2) (1 / 2) =
        .error .zeroDivisionError ∧
      recalculate [⟨0, 1⟩, ⟨1, 1⟩] 0 (1 / 2) (1 / 2) = .error .valueError ∧
      (recalculate [⟨0, 1⟩, ⟨1, 1⟩] 1 (1 / 2) (1 / 2)).isOk = true :=
  ⟨(C1_recalculate_failure_modes [⟨0, 1⟩] (1 / 5) (1 / 2) (1 / 2)).2.1
      (by norm_num) (by norm_num [total_time, List.getLastD]),
    (C1_recalculate_failure_modes [⟨0, 1⟩, ⟨1, 1⟩] 0 (1 / 2) (1 / 2)).2.2.1
      (by simp) (by norm_num [total_time, List.getLastD])
      (by norm_num [batch_filter_size, total_time, pythonRound, List.getLastD]),
    (C1_recalculate_failure_modes [⟨0, 1⟩, ⟨1, 1⟩] 1 (1 / 2) (1 / 2)).2.2.2
      (by simp) (by norm_num [total_time, List.getLastD])
      (by norm_num [batch_filter_size, total_time, pythonRound, List.getLastD])⟩

lemma batch_classify_comm (onThr r : ℚ) (h0 : 0 ≤ onThr) :
    (if r < -onThr then (-1 : ℚ) else if r > onThr then 1 else 0) =
      (if r > onThr then (1 : ℚ) else if r < -onThr then -1 else 0) := by
  split_ifs <;> first | rfl | linarith

/-- C8: the batch classification uses `onset_confidence_threshold` for both
bounds — `+1` exactly where `filter_response > onset`, `-1` exactly where
`filter_response < -onset`, `0` otherwise (for a non-negative threshold, as
configured) — and `offset_confidence_threshold` never affects the result of
`recalculate`. -/
theorem C8_batch_classification (all_pp : List Sample)
    (hl onThr offThr offThr' : ℚ) (h0 : 0 ≤ onThr) :
    recalculate all_pp hl onThr offThr = recalculate all_pp hl onThr offThr' ∧
    (∀ curve, recalculate all_pp hl onThr offThr = .ok curve →
      curve.response_classification = curve.filter_response.map
        (fun r => if r > onThr then (1 : ℚ) else if r < -onThr then -1 else 0)) := by
  refine ⟨rfl, fun curve hc => ?_⟩
  by_cases hE : all_pp.isEmpty
  · simp [recalculate, hE] at hc
  · by_cases hT : total_time all_pp = 0
    · simp [recalculate, hE, hT] at hc
    · by_cases hneg : batch_filter_size all_pp hl < 0
      · simp [recalculate, hE, hT, hneg] at hc
      · by_cases hz : batch_filter_size all_pp hl = 0
        · simp [recalculate, hE, hT, hneg, hz] at hc
        · simp only [recalculate, hE, hT, hneg, hz, if_false, if_neg,
            Bool.false_eq_true, Except.ok.injEq, reduceIte] at hc
          subst hc
          simp only [List.map_map]
          exact List.map_congr_left fun x _ =>
            batch_classify_comm onThr (x / (45 / 100)) h0

lemma recalc_three_samples :
    recalculate [⟨0, 1⟩, ⟨1, 1⟩, ⟨2, 1⟩] 2 (1 / 2) 0 =
      .ok { timestamps := [0, 1, 2], filter_response := [0, -20 / 27, -40 / 27],
            response_classification := [0, -1, -1] } := by
  have hT : total_time [⟨0, 1⟩, ⟨1, 1⟩, ⟨2, 1⟩] = 2 := by
    norm_num [total_time, List.getLastD]
  have hfs : batch_filter_size [⟨0, 1⟩, ⟨1, 1⟩, ⟨2, 1⟩] 2 = 3 := by
    norm_num [batch_filter_size, hT, pythonRound]
  have hbf : blink_filter 3 = [1 / 3, -1 / 3, -1 / 3] := by
    norm_num [blink_filter, List.replicate]
  have hconv : convolve_same [1, 1, 1] (blink_filter 3) = [0, -1 / 3, -2 / 3] := by
    rw [hbf]; norm_num [convolve_same, convFull, List.range_succ]
  have h3 : (3 : ℤ).toNat = 3 := rfl
  simp only [recalculate, hT, hfs, h3]
  norm_num [hconv, Function.comp]

/-- C8 witness: three samples at `0, 1, 2` with `history_length = 2`
(filter size 3, responses `[0, -20/27, -40/27]`) classified with
`onset = 1/2` and two different offset thresholds. -/
theorem C8_batch_classification_witness :
    recalculate [⟨0, 1⟩, ⟨1, 1⟩, ⟨2, 1⟩] 2 (1 / 2) 0 =
        recalculate [⟨0, 1⟩, ⟨1, 1⟩, ⟨2, 1⟩] 2 (1 / 2) 1 ∧
      ({ timestamps := [0, 1, 2], filter_response := [0, -20 / 27, -40 / 27],
          response_classification := [0, -1, -1] } : ResponseCurve).response_classification =
        ({ timestamps := [0, 1, 2], filter_response := [0, -20 / 27, -40 / 27],
            response_classification := [0, -1, -1] } : ResponseCurve).filter_response.map
          (fun r => if r > (1 / 2 : ℚ) then (1 : ℚ) else if r < -(1 / 2 : ℚ) then -1 else 0) :=
  ⟨(C8_batch_classification [⟨0, 1⟩, ⟨1, 1⟩, ⟨2, 1⟩] 2 (1 / 2) 0 1 (by norm_num)).1,
    (C8_batch_classification [⟨0, 1⟩, ⟨1, 1⟩, ⟨2, 1⟩] 2 (1 / 2) 0 1 (by norm_num)).2
      { timestamps := [0, 1, 2], filter_response := [0, -20 / 27, -40 / 27],
        response_classification := [0, -1, -1] }
      recalc_three_samples⟩

lemma detect_eq_none (s : BlinkState) (w : List Sample)
    (h : w.length < 2 ∨
      (w.getLastD dfltSample).timestamp - (w.headD dfltSample).timestamp <
        s.history_length) :
    detect s w = none := by
  match w with
  | [] => rfl
  | [a] => rfl
  | p0 :: p1 :: rest =>
    rcases h with h | h
    · simp at h
      omega
    · rw [detect, if_pos (by simpa using h)]

/-- C5: if after trimming the window has fewer than 2 samples, or spans less
than `history_length`, `recent_events` emits no event: the `events['blinks']`
list stays empty and `_recent_blink` stays `None`. -/
theorem C5_insufficient_window_no_event (s : BlinkState)
    (prior_blinks : List BlinkEvent) (new_pp : List Sample)
    (h : (post_window s.history_length s.history new_pp).length < 2 ∨
      ((post_window s.history_length s.history new_pp).getLastD
          dfltSample).timestamp -
        ((post_window s.history_length s.history new_pp).headD
          dfltSample).timestamp < s.history_length) :
    (recent_events s prior_blinks new_pp).2 = [] ∧
      (recent_events s prior_blinks new_pp).1.recent_blink = none := by
  have hd := detect_eq_none s _ h
  simp [recent_events, hd]

/-- C5 witness: a single fresh sample leaves a one-element window, and no
event is emitted. -/
theorem C5_insufficient_window_no_event_witness :
    (recent_events ⟨[], 1, 1 / 2, 1 / 2, none⟩ [] [⟨0, 1⟩]).2 = [] ∧
      (recent_events ⟨[], 1, 1 / 2, 1 / 2, none⟩ [] [⟨0, 1⟩]).1.recent_blink =
        none :=
  C5_insufficient_window_no_event ⟨[], 1, 1 / 2, 1 / 2, none⟩ [] [⟨0, 1⟩]
    (Or.inl (by simp [post_window, trim]))

/-- C9: every `recent_events` call emits at most one blink event, however
many new samples were appended: the response is computed once per call over
the post-trim window. -/
theorem C9_at_most_one_event (s : BlinkState) (prior_blinks : List BlinkEvent)
    (new_pp : List Sample) :
    (recent_events s prior_blinks new_pp).2.length ≤ 1 := by
  simp only [recent_events]
  cases detect s (post_window s.history_length s.history new_pp) <;> simp

/-- C10: `recent_events` starts by overwriting `events['blinks']` with a
fresh empty list and clearing `_recent_blink`, so the output never depends on
the caller's previous blink list, and a call that classifies no event leaves
an empty blink list and a cleared `_recent_blink`. -/
theorem C10_fresh_output (s : BlinkState)
    (prior_blinks prior_blinks' : List BlinkEvent) (new_pp : List Sample) :
    recent_events s prior_blinks new_pp = recent_events s prior_blinks' new_pp ∧
    (detect s (post_window s.history_length s.history new_pp) = none →
      (recent_events s prior_blinks new_pp).2 = [] ∧
        (recent_events s prior_blinks new_pp).1.recent_blink = none) := by
  refine ⟨rfl, fun hd => ?_⟩
  simp [recent_events, hd]

/-- C10 witness: a call with a stale prior blink list and no classifiable
event returns an empty list and a cleared `_recent_blink`. -/
theorem C10_fresh_output_witness :
    recent_events ⟨[], 1, 1 / 2, 1 / 2, none⟩
        [⟨"blink", BlinkType.onset, 1, [], 0, true⟩] [⟨0, 1⟩] =
      recent_events ⟨[], 1, 1 / 2, 1 / 2, none⟩ [] [⟨0, 1⟩] ∧
    (recent_events ⟨[], 1, 1 / 2, 1 / 2, none⟩
        [⟨"blink", BlinkType.onset, 1, [], 0, true⟩] [⟨0, 1⟩]).2 = [] ∧
      (recent_events ⟨[], 1, 1 / 2, 1 / 2, none⟩
          [⟨"blink", BlinkType.onset, 1, [], 0, true⟩]
          [⟨0, 1⟩]).1.recent_blink = none :=
  ⟨(C10_fresh_output ⟨[], 1, 1 / 2, 1 / 2, none⟩
      [⟨"blink", BlinkType.onset, 1, [], 0, true⟩] [] [⟨0, 1⟩]).1,
    (C10_fresh_output ⟨[], 1, 1 / 2, 1 / 2, none⟩
        [⟨"blink", BlinkType.onset, 1, [], 0, true⟩] [] [⟨0, 1⟩]).2
      (by simp [post_window, trim, detect])⟩

/-- C4: under non-decreasing timestamps and a positive `history_length`, the
post-trim window is a suffix of the extended history (trimming only pops from
the old end, so the two most recent samples are never removed), it never
shrinks below 2 samples once the extended history holds at least 2, and it
contains at most one sample older than `newest.timestamp - history_length`. -/
theorem C4_trimming_invariant (s : BlinkState) (new_pp : List Sample)
    (hsorted : (s.history ++ new_pp).Pairwise
      (fun p q => p.timestamp ≤ q.timestamp))
    (hpos : 0 < s.history_length) :
    post_window s.history_length s.history new_pp <:+ s.history ++ new_pp ∧
    (2 ≤ (s.history ++ new_pp).length →
      2 ≤ (post_window s.history_length s.history new_pp).length) ∧
    (post_window s.history_length s.history new_pp).countP
        (fun p => decide (p.timestamp <
          ((post_window s.history_length s.history new_pp).getLastD
              dfltSample).timestamp - s.history_length)) ≤ 1 := by
  rcases heq : (s.history ++ new_pp).getLast? with _ | lastS
  · have hnil : s.history ++ new_pp = [] := List.getLast?_eq_none_iff.mp heq
    simp only [post_window, hnil]
    simp
  · simp only [post_window, heq]
    have hwlast :
        (trim (lastS.timestamp - s.history_length)
            (s.history ++ new_pp)).getLastD dfltSample = lastS := by
      rw [List.getLastD_eq_getLast?, trim_getLast?, heq, Option.getD_some]
    refine ⟨trim_suffix _ _, fun h2 => ?_, ?_⟩
    · apply two_le_trim_length _ _ h2
      rw [List.getLastD_eq_getLast?, heq, Option.getD_some]
      exact sub_le_self _ hpos.le
    · rw [hwlast]
      have htail := trim_tail_ge (lastS.timestamp - s.history_length)
        (s.history ++ new_pp) hsorted
      rcases hw : trim (lastS.timestamp - s.history_length)
          (s.history ++ new_pp) with _ | ⟨q0, t⟩
      · simp
      · rw [hw] at htail
        rw [List.countP_cons]
        have ht : t.countP
            (fun p => decide (p.timestamp <
              lastS.timestamp - s.history_length)) = 0 := by
          rw [List.countP_eq_zero]
          intro p hp
          simpa using not_lt.mpr (htail p (by simpa using hp))
        rw [ht]
        split <;> omega

/-- C4 witness: history `[(0,1)]` extended by `[(1,1), (5,1)]` with
`history_length = 1`: trimming pops the sample at time 0, keeps
`[(1,1), (5,1)]`, of which only the sample at time 1 is older than
`5 - 1 = 4`. -/
theorem C4_trimming_invariant_witness :
    post_window 1 [⟨0, 1⟩] [⟨1, 1⟩, ⟨5, 1⟩] <:+
        ([⟨0, 1⟩] : List Sample) ++ ([⟨1, 1⟩, ⟨5, 1⟩] : List Sample) ∧
    (2 ≤ (([⟨0, 1⟩] : List Sample) ++ ([⟨1, 1⟩, ⟨5, 1⟩] : List Sample)).length →
      2 ≤ (post_window 1 [⟨0, 1⟩] [⟨1, 1⟩, ⟨5, 1⟩]).length) ∧
    (post_window 1 [⟨0, 1⟩] [⟨1, 1⟩, ⟨5, 1⟩]).countP
        (fun p => decide (p.timestamp <
          ((post_window 1 [⟨0, 1⟩] [⟨1, 1⟩, ⟨5, 1⟩]).getLastD
              dfltSample).timestamp - 1)) ≤ 1 :=
  C4_trimming_invariant
    ({ history := [⟨0, 1⟩], history_length := 1,
       onset_confidence_threshold := 1 / 2,
       offset_confidence_threshold := 1 / 2, recent_blink := none } : BlinkState)
    ([⟨1, 1⟩, ⟨5, 1⟩] : List Sample) (by decide) (by decide)

/-- C7: for a sufficient post-trim window `w` (at least two samples spanning
at least `history_length`) with response `r`: a response inside
`[-offset_threshold, onset_threshold]` emits nothing; a response above
`onset_threshold` emits one Onset event; otherwise the response is below
`-offset_threshold` and one Offset event is emitted.  Every emitted event has
confidence `min(|r|, 1)`, the timestamp of the window sample at index
`w.length / 2`, and the window snapshot as `base_data`. -/
theorem C7_streaming_classification (s : BlinkState)
    (prior_blinks : List BlinkEvent) (new_pp : List Sample)
    (w : List Sample) (r : ℚ)
    (hw : post_window s.history_length s.history new_pp = w)
    (hr : filter_response (w.map (fun pp => pp.confidence)) = r)
    (h2 : 2 ≤ w.length)
    (hspan : ¬ ((w.getLastD dfltSample).timestamp -
      (w.headD dfltSample).timestamp < s.history_length)) :
    ((-s.offset_confidence_threshold ≤ r ∧ r ≤ s.onset_confidence_threshold) →
      (recent_events s prior_blinks new_pp).2 = []) ∧
    (s.onset_confidence_threshold < r →
      (recent_events s prior_blinks new_pp).2 =
          [{ topic := "blink", type := BlinkType.onset,
             confidence := min |r| 1, base_data := w,
             timestamp := (w.getD (w.length / 2) dfltSample).timestamp,
             record := true }] ∧
        (recent_events s prior_blinks new_pp).1.recent_blink =
          some { topic := "blink", type := BlinkType.onset,
                 confidence := min |r| 1, base_data := w,
                 timestamp := (w.getD (w.length / 2) dfltSample).timestamp,
                 record := true }) ∧
    (¬ (-s.offset_confidence_threshold ≤ r ∧
          r ≤ s.onset_confidence_threshold) →
      ¬ s.onset_confidence_threshold < r →
      r < -s.offset_confidence_threshold ∧
        (recent_events s prior_blinks new_pp).2 =
          [{ topic := "blink", type := BlinkType.offset,
             confidence := min |r| 1, base_data := w,
             timestamp := (w.getD (w.length / 2) dfltSample).timestamp,
             record := true }]) := by
  rcases w with _ | ⟨p0, w'⟩
  · norm_num at h2
  rcases w' with _ | ⟨p1, rest⟩
  · norm_num at h2
  subst hr
  have hsp : ¬ (((p0 :: p1 :: rest).getLastD dfltSample).timestamp -
      p0.timestamp < s.history_length) := by simpa using hspan
  refine ⟨fun hband => ?_, fun hon => ?_, fun hband hnot => ?_⟩
  · have hd : detect s (p0 :: p1 :: rest) = none := by
      simp only [detect]
      rw [if_neg hsp, if_pos hband]
    simp [recent_events, hw, hd]
  · have hnb : ¬ (-s.offset_confidence_threshold ≤
        filter_response ((p0 :: p1 :: rest).map (fun pp => pp.confidence)) ∧
        filter_response ((p0 :: p1 :: rest).map (fun pp => pp.confidence)) ≤
          s.onset_confidence_threshold) :=
      fun h => absurd hon (not_lt.mpr h.2)
    have hd : detect s (p0 :: p1 :: rest) =
        some { topic := "blink", type := BlinkType.onset,
               confidence := min
                 |filter_response ((p0 :: p1 :: rest).map
                   (fun pp => pp.confidence))| 1,
               base_data := p0 :: p1 :: rest,
               timestamp := ((p0 :: p1 :: rest).getD
                 ((p0 :: p1 :: rest).length / 2) dfltSample).timestamp,
               record := true } := by
      simp only [detect]
      rw [if_neg hsp, if_neg hnb, if_pos hon]
    simp [recent_events, hw, hd]
  · have hoff : filter_response ((p0 :: p1 :: rest).map
        (fun pp => pp.confidence)) < -s.offset_confidence_threshold :=
      not_le.mp fun hge => hband ⟨hge, not_lt.mp hnot⟩
    refine ⟨hoff, ?_⟩
    have hd : detect s (p0 :: p1 :: rest) =
        some { topic := "blink", type := BlinkType.offset,
               confidence := min
                 |filter_response ((p0 :: p1 :: rest).map
                   (fun pp => pp.confidence))| 1,
               base_data := p0 :: p1 :: rest,
               timestamp := ((p0 :: p1 :: rest).getD
                 ((p0 :: p1 :: rest).length / 2) dfltSample).timestamp,
               record := true } := by
      simp only [detect]
      rw [if_neg hsp, if_neg hband, if_neg hnot]
    simp [recent_events, hw, hd]

/-- C7 witness: a confidence drop from 1 to 0 over a window of two samples
spanning exactly `history_length = 1` gives response `10/9 > 1/2` and one
Onset event. -/
theorem C7_streaming_classification_witness :
    (recent_events ⟨[], 1, 1 / 2, 1 / 2, none⟩ [] [⟨0, 1⟩, ⟨1, 0⟩]).2 =
        [{ topic := "blink", type := BlinkType.onset,
           confidence := min |(10 / 9 : ℚ)| 1,
           base_data := [⟨0, 1⟩, ⟨1, 0⟩],
           timestamp := (([⟨0, 1⟩, ⟨1, 0⟩] : List Sample).getD
             (([⟨0, 1⟩, ⟨1, 0⟩] : List Sample).length / 2) dfltSample).timestamp,
           record := true }] ∧
      (recent_events ⟨[], 1, 1 / 2, 1 / 2, none⟩ [] [⟨0, 1⟩, ⟨1, 0⟩]).1.recent_blink =
        some { topic := "blink", type := BlinkType.onset,
               confidence := min |(10 / 9 : ℚ)| 1,
               base_data := [⟨0, 1⟩, ⟨1, 0⟩],
               timestamp := (([⟨0, 1⟩, ⟨1, 0⟩] : List Sample).getD
                 (([⟨0, 1⟩, ⟨1, 0⟩] : List Sample).length / 2) dfltSample).timestamp,
               record := true } :=
  (C7_streaming_classification ⟨[], 1, 1 / 2, 1 / 2, none⟩ [] [⟨0, 1⟩, ⟨1, 0⟩]
      [⟨0, 1⟩, ⟨1, 0⟩] (10 / 9)
      (by norm_num [post_window, trim])
      (by norm_num [filter_response, dotProduct, blink_filter, List.replicate])
      (by norm_num)
      (by norm_num [List.getLastD, List.headD])).2.1
    (by norm_num)

end BlinkDetection
